import Mathlib

set_option maxRecDepth 8000

/-!
Shallow embedding of the voxel-terrain core of the
luminance_procedural_world repository: the files terrain/voxel.rs,
terrain/mesh_gen.rs, terrain/world_gen.rs, terrain/mod.rs and maths.rs.

f32 values are idealized as rationals (every arithmetic step the claims
touch is either exact in f32 or explicitly discussed at the theorem);
machine-integer casts are made explicit where they matter.  Fallible code
(the panicking constructor of SectorSpaceCoords) returns Option or Except.
-/

/-- Source: terrain/mod.rs, the constant SECTOR_SIZE = 32, the side length of
a cubic sector. -/
def SECTOR_SIZE : Nat := 32

/-- Source: terrain/voxel.rs, the constant
SECTOR_LEN = SECTOR_SIZE * SECTOR_SIZE * SECTOR_SIZE. -/
def SECTOR_LEN : Nat := SECTOR_SIZE * SECTOR_SIZE * SECTOR_SIZE

/-- Source: terrain/voxel.rs, the enum Block. -/
inductive Block where
  | Air
  | Limestone
  | Loam
  | Grass
  | Tree
  | Leaves
deriving DecidableEq, Repr

/-- Source: terrain/voxel.rs, Block::is_air. -/
def Block.is_air : Block → Bool
  | Block.Air => true
  | _ => false

/-- Source: terrain/voxel.rs, Block::needs_rendering. -/
def Block.needs_rendering (b : Block) : Bool := !b.is_air

/-- The discriminant of the Block enum, as read by the cast
`*block as u32` in terrain/mesh_gen.rs (tex_coords). -/
def Block.discr : Block → Nat
  | Block.Air => 0
  | Block.Limestone => 1
  | Block.Loam => 2
  | Block.Grass => 3
  | Block.Tree => 4
  | Block.Leaves => 5

/-- Source: terrain/voxel.rs, struct SectorSpaceCoords: a coordinate triple
whose components are established to be < SECTOR_SIZE (the checked
constructor panics otherwise, so every live value satisfies the bound). -/
@[ext] structure SectorSpaceCoords where
  x : Nat
  y : Nat
  z : Nat
  hx : x < SECTOR_SIZE
  hy : y < SECTOR_SIZE
  hz : z < SECTOR_SIZE

instance : DecidableEq SectorSpaceCoords := fun a b =>
  decidable_of_iff (a.x = b.x ∧ a.y = b.y ∧ a.z = b.z)
    (by cases a; cases b; simp [SectorSpaceCoords.ext_iff])

/-- Source: terrain/voxel.rs, SectorSpaceCoords::new.  The source panics
when a component is ≥ SECTOR_SIZE; the panic is modelled as none. -/
def SectorSpaceCoords.new (x y z : Nat) : Option SectorSpaceCoords :=
  if h : x < SECTOR_SIZE ∧ y < SECTOR_SIZE ∧ z < SECTOR_SIZE then
    some ⟨x, y, z, h.1, h.2.1, h.2.2⟩
  else
    none

/-- Source: terrain/voxel.rs, SectorSpaceCoords::back (in-sector neighbor
one step along -z, none at the boundary).  The inner call to the checked
constructor is in range, so it is modelled by the plain constructor. -/
def SectorSpaceCoords.back (c : SectorSpaceCoords) : Option SectorSpaceCoords :=
  if 0 < c.z then
    some ⟨c.x, c.y, c.z - 1, c.hx, c.hy, by have := c.hz; omega⟩
  else
    none

/-- Source: terrain/voxel.rs, SectorSpaceCoords::front. -/
def SectorSpaceCoords.front (c : SectorSpaceCoords) : Option SectorSpaceCoords :=
  if h : c.z < SECTOR_SIZE - 1 then
    some ⟨c.x, c.y, c.z + 1, c.hx, c.hy, by omega⟩
  else
    none

/-- Source: terrain/voxel.rs, SectorSpaceCoords::top. -/
def SectorSpaceCoords.top (c : SectorSpaceCoords) : Option SectorSpaceCoords :=
  if h : c.y < SECTOR_SIZE - 1 then
    some ⟨c.x, c.y + 1, c.z, c.hx, by omega, c.hz⟩
  else
    none

/-- Source: terrain/voxel.rs, SectorSpaceCoords::bottom. -/
def SectorSpaceCoords.bottom (c : SectorSpaceCoords) : Option SectorSpaceCoords :=
  if 0 < c.y then
    some ⟨c.x, c.y - 1, c.z, c.hx, by have := c.hy; omega, c.hz⟩
  else
    none

/-- Source: terrain/voxel.rs, SectorSpaceCoords::left. -/
def SectorSpaceCoords.left (c : SectorSpaceCoords) : Option SectorSpaceCoords :=
  if 0 < c.x then
    some ⟨c.x - 1, c.y, c.z, by have := c.hx; omega, c.hy, c.hz⟩
  else
    none

/-- Source: terrain/voxel.rs, SectorSpaceCoords::right. -/
def SectorSpaceCoords.right (c : SectorSpaceCoords) : Option SectorSpaceCoords :=
  if h : c.x < SECTOR_SIZE - 1 then
    some ⟨c.x + 1, c.y, c.z, by omega, c.hy, c.hz⟩
  else
    none

/-- Source: terrain/voxel.rs, struct BlockList: a flat array of SECTOR_LEN
blocks, modelled as a list with its length invariant. -/
structure BlockList where
  data : List Block
  hlen : data.length = SECTOR_LEN

/-- Source: terrain/voxel.rs, BlockList::index:
x + y * SECTOR_SIZE + z * SECTOR_SIZE * SECTOR_SIZE. -/
def BlockList.index (pos : SectorSpaceCoords) : Nat :=
  pos.x + pos.y * SECTOR_SIZE + pos.z * SECTOR_SIZE * SECTOR_SIZE

/-- Source: terrain/voxel.rs, BlockList::get.  The access is in bounds for
every in-range coordinate (see BlockList.index_lt below). -/
def BlockList.get (bl : BlockList) (pos : SectorSpaceCoords) : Block :=
  bl.data.get ⟨BlockList.index pos, by
    have hx := pos.hx
    have hy := pos.hy
    have hz := pos.hz
    rw [bl.hlen]
    simp only [BlockList.index, SECTOR_LEN, SECTOR_SIZE] at *
    omega⟩

/-- Source: terrain/voxel.rs, BlockList::set. -/
def BlockList.set (bl : BlockList) (pos : SectorSpaceCoords) (b : Block) : BlockList :=
  ⟨bl.data.set (BlockList.index pos) b, by rw [List.length_set]; exact bl.hlen⟩

/-- Source: terrain/voxel.rs, BlockList::new_air. -/
def BlockList.new_air : BlockList :=
  ⟨List.replicate SECTOR_LEN Block.Air, List.length_replicate _ _⟩

/-- Source: terrain/voxel.rs, BlockList::needs_rendering: true when some
block needs rendering (the source loop returns at the first such block,
which List.any mirrors). -/
def BlockList.needs_rendering (bl : BlockList) : Bool :=
  bl.data.any (fun b => b.needs_rendering)

/-- Source: terrain/voxel.rs, the index decoding performed by
BlockListIter::next: z = i / S², then subtract, y = rest / S, then
subtract, x = rest. -/
def blockListIterDecode (i : Nat) : Nat × Nat × Nat :=
  let z := i / (SECTOR_SIZE * SECTOR_SIZE)
  let t := i - z * (SECTOR_SIZE * SECTOR_SIZE)
  let y := t / SECTOR_SIZE
  let t2 := t - y * SECTOR_SIZE
  (t2, y, z)

/-- Source: terrain/voxel.rs, the sequence of (coords, block) pairs an
iterator over a BlockList produces (enumerate, then decode the index);
each decoded component is in range because the enumeration index is. -/
def BlockList.iter (bl : BlockList) : List (SectorSpaceCoords × Block) :=
  (List.finRange SECTOR_LEN).map (fun i =>
    (⟨(blockListIterDecode i.val).1, (blockListIterDecode i.val).2.1,
      (blockListIterDecode i.val).2.2,
      by have h := i.isLt; simp only [blockListIterDecode, SECTOR_LEN, SECTOR_SIZE] at *; omega,
      by have h := i.isLt; simp only [blockListIterDecode, SECTOR_LEN, SECTOR_SIZE] at *; omega,
      by have h := i.isLt; simp only [blockListIterDecode, SECTOR_LEN, SECTOR_SIZE] at *; omega⟩,
     bl.data.get ⟨i.val, by rw [bl.hlen]; exact i.isLt⟩))


/-- Source: maths.rs, struct Translation, with the f32 components idealized
as rationals. -/
structure Translation where
  x : ℚ
  y : ℚ
  z : ℚ
deriving DecidableEq, Repr

/-- Source: maths.rs, struct Plane: a 3D plane (A, B, C, D). -/
structure Plane where
  a : ℚ
  b : ℚ
  c : ℚ
  d : ℚ
deriving DecidableEq, Repr

/-- Source: maths.rs, struct Frustum: an array of six planes
(right, left, bottom, top, far, near). -/
structure Frustum where
  planes : List Plane
  hlen : planes.length = 6

/-- Source: terrain/mod.rs, the terrain vertex: position and texture
coordinates as laid out by mesh_gen.rs (which pushes (Position, UV)
pairs). -/
def Vertex : Type := (ℚ × ℚ × ℚ) × (ℚ × ℚ)

instance : DecidableEq Vertex := by unfold Vertex; infer_instance

/-- Source: model.rs, struct Model: a tesselation built from a vertex
buffer, a shared texture handle, and a translation.  The GPU tesselation
is represented by the vertex list it was built from; the shared texture
handle carries no sector-dependent state and is omitted. -/
structure Model where
  vertices : List Vertex
  translation : Translation

/-- Source: terrain/voxel.rs, struct Sector: a sector owns its BlockList
and an optional render model. -/
structure Sector where
  blocks : BlockList
  model : Option Model

/-- Modelled from the spec: AdjacentSectors, the transient bundle of the
six face-neighboring sectors handed to the mesh generator (spec 3; the
revision of voxel.rs that defines it is not under src/, its shape is
determined by its uses in mesh_gen.rs and mod.rs). -/
structure AdjacentSectors where
  back : Sector
  front : Sector
  top : Sector
  bottom : Sector
  left : Sector
  right : Sector

/-- Source: png crate OutputInfo as used by mesh_gen.rs: only the pixel
width and height of the texture atlas are read. -/
structure OutputInfo where
  width : Nat
  height : Nat

/-- Source: terrain/mesh_gen.rs, const TILE_SIZE: f32 = 16. -/
def TILE_SIZE : ℚ := 16

/-- Source: terrain/mesh_gen.rs, enum Face. -/
inductive Face where
  | Back
  | Front
  | Top
  | Bottom
  | Left
  | Right
deriving DecidableEq, Repr, Fintype

/-- Source: terrain/mesh_gen.rs, const POSITIONS: the fixed local cube
vertex layout (indices 0..7; the source array is only ever indexed with
these, so the catch-all arm is never reached). -/
def POSITIONS : Nat → ℚ × ℚ × ℚ
  | 0 => (0, 0, 0)
  | 1 => (0, 1, 0)
  | 2 => (1, 1, 0)
  | 3 => (1, 0, 0)
  | 4 => (1, 0, 1)
  | 5 => (1, 1, 1)
  | 6 => (0, 1, 1)
  | 7 => (0, 0, 1)
  | _ => (0, 0, 0)

/-- Source: terrain/mesh_gen.rs, tex_coords: the UV rectangle of a block
computed from its atlas index. -/
def tex_coords (block : Block) (texture_info : OutputInfo) :
    (ℚ × ℚ) × (ℚ × ℚ) × (ℚ × ℚ) × (ℚ × ℚ) :=
  let width : ℚ := texture_info.width
  let height : ℚ := texture_info.height
  let ru := TILE_SIZE / width
  let rv := TILE_SIZE / height
  let num : ℚ := (Block.discr block : ℚ) - 1
  ((ru * (num + 1), rv), (ru * (num + 1), 0), (ru * num, 0), (ru * num, rv))

/-- Source: terrain/mesh_gen.rs, generate_face: the six vertices (two
triangles sharing vtx0 and vtx2) pushed for one face of one block. -/
def generate_face (block : SectorSpaceCoords × Block) (face : Face)
    (texture_info : OutputInfo) : List Vertex :=
  let uvs := tex_coords block.2 texture_info
  let triangles_uv : (Nat × Nat × Nat × Nat) ×
      ((ℚ × ℚ) × (ℚ × ℚ) × (ℚ × ℚ) × (ℚ × ℚ)) :=
    match face with
    | Face.Back => ((0, 1, 2, 3), uvs)
    | Face.Front => ((4, 5, 6, 7), uvs)
    | Face.Top => ((5, 2, 1, 6), uvs)
    | Face.Bottom => ((3, 4, 7, 0), uvs)
    | Face.Left => ((7, 6, 1, 0), uvs)
    | Face.Right => ((3, 2, 5, 4), uvs)
  let triangles := triangles_uv.1
  let uv := triangles_uv.2
  let original : ℚ × ℚ × ℚ := (block.1.x, block.1.y, block.1.z)
  let shift : Nat → ℚ × ℚ → Vertex := fun i u =>
    (((POSITIONS i).1 + original.1,
      (POSITIONS i).2.1 + original.2.1,
      (POSITIONS i).2.2 + original.2.2), u)
  let vtx0 := shift triangles.1 uv.1
  let vtx1 := shift triangles.2.1 uv.2.1
  let vtx2 := shift triangles.2.2.1 uv.2.2.1
  let vtx3 := shift triangles.2.2.2 uv.2.2.2
  [vtx0, vtx1, vtx2, vtx0, vtx2, vtx3]

/-- Source: terrain/mesh_gen.rs, should_create_face (the live match arms,
lines 172-196): pick the block list and neighbor coordinate — the
in-sector neighbor when one exists, else the matching position of the
adjacent sector — and create the face unless that block needs
rendering. -/
def should_create_face (face : Face) (coord : SectorSpaceCoords)
    (blocks : BlockList) (adjacent : AdjacentSectors) : Bool :=
  let p : BlockList × Option SectorSpaceCoords :=
    match face with
    | Face.Back =>
      match coord.back with
      | some c => (blocks, some c)
      | none => (adjacent.back.blocks,
          some ⟨coord.x, coord.y, SECTOR_SIZE - 1, coord.hx, coord.hy, by decide⟩)
    | Face.Front =>
      match coord.front with
      | some c => (blocks, some c)
      | none => (adjacent.front.blocks,
          some ⟨coord.x, coord.y, 0, coord.hx, coord.hy, by decide⟩)
    | Face.Top =>
      match coord.top with
      | some c => (blocks, some c)
      | none => (adjacent.top.blocks,
          some ⟨coord.x, 0, coord.z, coord.hx, by decide, coord.hz⟩)
    | Face.Bottom =>
      match coord.bottom with
      | some c => (blocks, some c)
      | none => (adjacent.bottom.blocks,
          some ⟨coord.x, SECTOR_SIZE - 1, coord.z, coord.hx, by decide, coord.hz⟩)
    | Face.Left =>
      match coord.left with
      | some c => (blocks, some c)
      | none => (adjacent.left.blocks,
          some ⟨SECTOR_SIZE - 1, coord.y, coord.z, by decide, coord.hy, coord.hz⟩)
    | Face.Right =>
      match coord.right with
      | some c => (blocks, some c)
      | none => (adjacent.right.blocks,
          some ⟨0, coord.y, coord.z, by decide, coord.hy, coord.hz⟩)
  p.2.elim true (fun c => !(p.1.get c).needs_rendering)

/-- Source: terrain/mesh_gen.rs, generate_block_vertices, body of the loop
for one (coords, block) pair: the concatenation of the six per-face
emissions in source order. -/
def blockFaces (i : SectorSpaceCoords × Block) (blocks : BlockList)
    (adjacent : AdjacentSectors) (texture_info : OutputInfo) : List Vertex :=
  (if should_create_face Face.Back i.1 blocks adjacent then
      generate_face i Face.Back texture_info else []) ++
  (if should_create_face Face.Front i.1 blocks adjacent then
      generate_face i Face.Front texture_info else []) ++
  (if should_create_face Face.Top i.1 blocks adjacent then
      generate_face i Face.Top texture_info else []) ++
  (if should_create_face Face.Bottom i.1 blocks adjacent then
      generate_face i Face.Bottom texture_info else []) ++
  (if should_create_face Face.Left i.1 blocks adjacent then
      generate_face i Face.Left texture_info else []) ++
  (if should_create_face Face.Right i.1 blocks adjacent then
      generate_face i Face.Right texture_info else [])

/-- Source: terrain/mesh_gen.rs, generate_block_vertices: iterate over the
block list; every non-air block contributes its visible faces. -/
def generate_block_vertices (blocks : BlockList) (adjacent : AdjacentSectors)
    (texture_info : OutputInfo) : List Vertex :=
  (blocks.iter.map (fun i =>
    if !i.2.is_air then blockFaces i blocks adjacent texture_info else [])).flatten

/-- The face on the other side of a shared sector boundary. -/
def Face.opposite : Face → Face
  | Face.Back => Face.Front
  | Face.Front => Face.Back
  | Face.Top => Face.Bottom
  | Face.Bottom => Face.Top
  | Face.Left => Face.Right
  | Face.Right => Face.Left

/-- A coordinate lies on the sector boundary crossed by a face direction
(the in-sector neighbor query of voxel.rs returns none exactly there). -/
def Face.atBoundary : Face → SectorSpaceCoords → Prop
  | Face.Back, c => c.z = 0
  | Face.Front, c => c.z = SECTOR_SIZE - 1
  | Face.Top, c => c.y = SECTOR_SIZE - 1
  | Face.Bottom, c => c.y = 0
  | Face.Left, c => c.x = 0
  | Face.Right, c => c.x = SECTOR_SIZE - 1

/-- The matching position in the adjacent sector across a face direction,
as constructed by the boundary arms of should_create_face (mesh_gen.rs). -/
def Face.wrap : Face → SectorSpaceCoords → SectorSpaceCoords
  | Face.Back, c => ⟨c.x, c.y, SECTOR_SIZE - 1, c.hx, c.hy, by decide⟩
  | Face.Front, c => ⟨c.x, c.y, 0, c.hx, c.hy, by decide⟩
  | Face.Top, c => ⟨c.x, 0, c.z, c.hx, by decide, c.hz⟩
  | Face.Bottom, c => ⟨c.x, SECTOR_SIZE - 1, c.z, c.hx, by decide, c.hz⟩
  | Face.Left, c => ⟨SECTOR_SIZE - 1, c.y, c.z, by decide, c.hy, c.hz⟩
  | Face.Right, c => ⟨0, c.y, c.z, by decide, c.hy, c.hz⟩

/-- The neighbor sector of an AdjacentSectors bundle in a face direction. -/
def AdjacentSectors.sel : Face → AdjacentSectors → Sector
  | Face.Back, a => a.back
  | Face.Front, a => a.front
  | Face.Top, a => a.top
  | Face.Bottom, a => a.bottom
  | Face.Left, a => a.left
  | Face.Right, a => a.right

/-- The in-sector neighbor query of voxel.rs in a face direction
(back/front/top/bottom/left/right), none at the sector boundary. -/
def stepInSector : Face → SectorSpaceCoords → Option SectorSpaceCoords
  | Face.Back, c => c.back
  | Face.Front, c => c.front
  | Face.Top, c => c.top
  | Face.Bottom, c => c.bottom
  | Face.Left, c => c.left
  | Face.Right, c => c.right

/-- Modelled from the spec (4.2): the occluding neighbor block of a face —
the neighbor block in the same sector when the coordinate is not at a
boundary, else the matching block in the adjacent sector. -/
def neighborBlockSpec (f : Face) (c : SectorSpaceCoords) (blocks : BlockList)
    (adjacent : AdjacentSectors) : Block :=
  match stepInSector f c with
  | some c2 => blocks.get c2
  | none => ((AdjacentSectors.sel f adjacent).blocks).get (Face.wrap f c)

/-- Source: terrain/mod.rs, SECTOR_SIZE_F = SECTOR_SIZE as f32. -/
def SECTOR_SIZE_F : ℚ := SECTOR_SIZE

/-- Source: terrain/mod.rs, SECTOR_SIZE_F_2 = SECTOR_SIZE_F / 2. -/
def SECTOR_SIZE_F_2 : ℚ := SECTOR_SIZE_F / 2

/-- Source: terrain/mod.rs, COLLIDE_PADDING = 0.3. -/
def COLLIDE_PADDING : ℚ := 3 / 10

/-- Source: terrain/mod.rs, the first statement of sector_visible: the
world-space center of a sector, its coordinate times the sector size plus
half a sector on each axis. -/
def sectorCenter (pos : ℤ × ℤ × ℤ) : ℚ × ℚ × ℚ :=
  ((pos.1 : ℚ) * SECTOR_SIZE_F + SECTOR_SIZE_F_2,
   (pos.2.1 : ℚ) * SECTOR_SIZE_F + SECTOR_SIZE_F_2,
   (pos.2.2 : ℚ) * SECTOR_SIZE_F + SECTOR_SIZE_F_2)

/-- Source: terrain/mod.rs, the per-plane signed distance computed inside
sector_visible: i.a * pos.0 + i.b * pos.1 + i.c * pos.2 + i.d. -/
def planeDistance (p : Plane) (v : ℚ × ℚ × ℚ) : ℚ :=
  p.a * v.1 + p.b * v.2.1 + p.c * v.2.2 + p.d

/-- Source: terrain/mod.rs, sector_visible: return false as soon as some
plane has signed distance ≤ -SECTOR_SIZE_F from the sector center, else
true (List.all short-circuits exactly like the source loop). -/
def sector_visible (frustum : Frustum) (pos : ℤ × ℤ × ℤ) : Bool :=
  let c := sectorCenter pos
  frustum.planes.all (fun i => !decide (planeDistance i c ≤ -SECTOR_SIZE_F))

/-- A concrete frustum exercising sector_visible: its first plane holds the
sector center of (0,0,0) at signed distance -20. -/
def frustumCex : Frustum :=
  ⟨[⟨0, 1, 0, -36⟩, ⟨0, 1, 0, 0⟩, ⟨0, 1, 0, 0⟩,
    ⟨0, 1, 0, 0⟩, ⟨0, 1, 0, 0⟩, ⟨0, 1, 0, 0⟩], rfl⟩

/-- Source: terrain/mod.rs, the sectors field of Terrain:
HashMap<(i32, i32, i32), Sector>, modelled as an association list. -/
abbrev SectorMap : Type := List ((ℤ × ℤ × ℤ) × Sector)

/-- Modelled from the spec (3, Sector): the one-argument Sector constructor
called by the Generated arm of Terrain::update (the revision of voxel.rs
defining it is not under src/): a freshly generated sector owns the
delivered BlockList and has no render model until it is meshed. -/
def Sector.new (blocks : BlockList) : Sector := ⟨blocks, none⟩

/-- Source: terrain/mod.rs: for a Query on a non-resident coordinate,
Terrain::update sends the coordinate on the needed channel (line 178) and
the generator thread drains that channel into the shared work queue with
an unconditional push_back (lines 516-526).  The single-consumer channel
hop is collapsed into the direct composition of the two steps. -/
def requestSector (sectors : SectorMap) (queue : List (ℤ × ℤ × ℤ))
    (c : ℤ × ℤ × ℤ) : List (ℤ × ℤ × ℤ) :=
  if (sectors.lookup c).isSome then queue else queue ++ [c]

/-- Source: terrain/mod.rs, lines 181-183, the Generated arm of
Terrain::update: sectors.entry(coords).or_insert_with(.. Sector::new(list))
— construct and insert a sector only when the key is absent. -/
def handleGenerated (sectors : SectorMap) (c : ℤ × ℤ × ℤ)
    (block_list : BlockList) : SectorMap :=
  match sectors.lookup c with
  | some _ => sectors
  | none => (c, Sector.new block_list) :: sectors

/-- Rust f32 round: nearest integer, ties away from zero.  Exact on the
integer-valued rationals standing in for f32 values here. -/
def roundQ (q : ℚ) : ℤ :=
  if 0 ≤ q then ⌊q + 1 / 2⌋ else ⌈q - 1 / 2⌉

/-- Source: terrain/mod.rs, sector_at: round each component, divide by the
sector size, floor, cast to i32.  Division of an integer-valued float by
32 and the floor are exact in f32, so the composite is modelled over ℚ. -/
def sector_at (pos : Translation) : ℤ × ℤ × ℤ :=
  (⌊(roundQ pos.x : ℚ) / SECTOR_SIZE_F⌋,
   ⌊(roundQ pos.y : ℚ) / SECTOR_SIZE_F⌋,
   ⌊(roundQ pos.z : ℚ) / SECTOR_SIZE_F⌋)

/-- Source: terrain/mod.rs, Terrain::get_visible_block.  Except.error
models the panic of SectorSpaceCoords::new on an out-of-range local
coordinate; ok none covers both an absent sector and a generated-but-not-
rendered one; the `as u8` casts keep the low eight bits. -/
def get_visible_block (sectors : SectorMap) (pos : Translation) :
    Except Unit (Option Block) :=
  let sector_pos := sector_at pos
  let p : ℤ × ℤ × ℤ := (roundQ pos.x, roundQ pos.y, roundQ pos.z)
  match sectors.lookup sector_pos with
  | none => Except.ok none
  | some sector =>
    if sector.model.isNone && sector.blocks.needs_rendering then
      Except.ok none
    else
      let lx := ((p.1 - sector_pos.1 * (SECTOR_SIZE : ℤ)) % 256).toNat
      let ly := ((p.2.1 - sector_pos.2.1 * (SECTOR_SIZE : ℤ)) % 256).toNat
      let lz := ((p.2.2 - sector_pos.2.2 * (SECTOR_SIZE : ℤ)) % 256).toNat
      match SectorSpaceCoords.new lx ly lz with
      | none => Except.error ()
      | some lc => Except.ok (some (sector.blocks.get lc))

/-- The local coordinates computed inside get_visible_block before the u8
cast: rounded world component minus sector coordinate times SECTOR_SIZE. -/
def localCoordsOf (pos : Translation) : ℤ × ℤ × ℤ :=
  (roundQ pos.x - (sector_at pos).1 * (SECTOR_SIZE : ℤ),
   roundQ pos.y - (sector_at pos).2.1 * (SECTOR_SIZE : ℤ),
   roundQ pos.z - (sector_at pos).2.2 * (SECTOR_SIZE : ℤ))

/-- The probe position of one arm of Terrain::collide: the current
translation with one component replaced by its rounded value shifted one
block along that axis (Back/Front probe z, Top/Bottom probe y as the
source's above/below arms, Left/Right probe x). -/
def collideProbe : Face → Translation → Translation
  | Face.Back, t => ⟨t.x, t.y, (roundQ t.z : ℚ) - 1⟩
  | Face.Front, t => ⟨t.x, t.y, (roundQ t.z : ℚ) + 1⟩
  | Face.Top, t => ⟨t.x, (roundQ t.y : ℚ) + 1, t.z⟩
  | Face.Bottom, t => ⟨t.x, (roundQ t.y : ℚ) - 1, t.z⟩
  | Face.Left, t => ⟨(roundQ t.x : ℚ) - 1, t.y, t.z⟩
  | Face.Right, t => ⟨(roundQ t.x : ℚ) + 1, t.y, t.z⟩

/-- The clamp bound of one arm of Terrain::collide: the probe coordinate
plus (1 + COLLIDE_PADDING) on the negative sides, minus it on the positive
sides. -/
def collideMargin : Face → Translation → ℚ
  | Face.Back, t => (collideProbe Face.Back t).z + 1 + COLLIDE_PADDING
  | Face.Front, t => (collideProbe Face.Front t).z - 1 - COLLIDE_PADDING
  | Face.Top, t => (collideProbe Face.Top t).y - 1 - COLLIDE_PADDING
  | Face.Bottom, t => (collideProbe Face.Bottom t).y + 1 + COLLIDE_PADDING
  | Face.Left, t => (collideProbe Face.Left t).x + 1 + COLLIDE_PADDING
  | Face.Right, t => (collideProbe Face.Right t).x - 1 - COLLIDE_PADDING

/-- The direction of the clamp offset relative to the probe coordinate. -/
def collideSign : Face → ℚ
  | Face.Back => 1
  | Face.Front => -1
  | Face.Top => -1
  | Face.Bottom => 1
  | Face.Left => 1
  | Face.Right => -1

/-- The penetration test of one arm of Terrain::collide (component below
the margin on negative sides, above it on positive sides). -/
def collidePenetrates : Face → Translation → Bool
  | Face.Back, t => decide (t.z < collideMargin Face.Back t)
  | Face.Front, t => decide (collideMargin Face.Front t < t.z)
  | Face.Top, t => decide (collideMargin Face.Top t < t.y)
  | Face.Bottom, t => decide (t.y < collideMargin Face.Bottom t)
  | Face.Left, t => decide (t.x < collideMargin Face.Left t)
  | Face.Right, t => decide (collideMargin Face.Right t < t.x)

/-- The solidity test of one arm of Terrain::collide: the probe block is
solid when get_visible_block yields a non-air block (None means no
collision). -/
def solidProbe (sectors : SectorMap) (f : Face) (t : Translation) : Bool :=
  match get_visible_block sectors (collideProbe f t) with
  | Except.ok (some b) => !b.is_air
  | _ => false

/-- The whole guard of one arm of Terrain::collide. -/
def collideGuard (sectors : SectorMap) (f : Face) (t : Translation) : Bool :=
  solidProbe sectors f t && collidePenetrates f t

/-- The clamped translation one arm of Terrain::collide writes when its
guard holds: the probed component is set to the margin. -/
def applyClamp (f : Face) (t : Translation) : Translation :=
  match f with
  | Face.Back => ⟨t.x, t.y, collideMargin Face.Back t⟩
  | Face.Front => ⟨t.x, t.y, collideMargin Face.Front t⟩
  | Face.Top => ⟨t.x, collideMargin Face.Top t, t.z⟩
  | Face.Bottom => ⟨t.x, collideMargin Face.Bottom t, t.z⟩
  | Face.Left => ⟨collideMargin Face.Left t, t.y, t.z⟩
  | Face.Right => ⟨collideMargin Face.Right t, t.y, t.z⟩

/-- One arm of Terrain::collide, threading the panic possibility of
get_visible_block. -/
def collideStep (sectors : SectorMap) (f : Face) (t : Translation) :
    Except Unit Translation := do
  let vb ← get_visible_block sectors (collideProbe f t)
  let solid := vb.elim false (fun b => !b.is_air)
  pure (if solid && collidePenetrates f t then applyClamp f t else t)

/-- Source: terrain/mod.rs, Terrain::collide: the six arms applied in
source order (back, front, above, below, left, right), each arm reading
the translation as updated by the previous arms. -/
def collide (sectors : SectorMap) (t : Translation) : Except Unit Translation := do
  let t1 ← collideStep sectors Face.Back t
  let t2 ← collideStep sectors Face.Front t1
  let t3 ← collideStep sectors Face.Top t2
  let t4 ← collideStep sectors Face.Bottom t3
  let t5 ← collideStep sectors Face.Left t4
  let t6 ← collideStep sectors Face.Right t5
  pure t6

/-- The pure value of one collide arm (collideStep never reaches the panic
branch; see the panic-freedom theorem). -/
def collideStepT (sectors : SectorMap) (f : Face) (t : Translation) : Translation :=
  if collideGuard sectors f t then applyClamp f t else t

/-- The position of each arm in the source order of Terrain::collide. -/
def faceOrderIdx : Face → Nat
  | Face.Back => 0
  | Face.Front => 1
  | Face.Top => 2
  | Face.Bottom => 3
  | Face.Left => 4
  | Face.Right => 5

/-- The world axis an arm probes (x = 0, y = 1, z = 2). -/
def axisOf : Face → Nat
  | Face.Back => 2
  | Face.Front => 2
  | Face.Top => 1
  | Face.Bottom => 1
  | Face.Left => 0
  | Face.Right => 0

/-- The translation component along the axis an arm probes. -/
def axisComponent (f : Face) (t : Translation) : ℚ :=
  match f with
  | Face.Back => t.z
  | Face.Front => t.z
  | Face.Top => t.y
  | Face.Bottom => t.y
  | Face.Left => t.x
  | Face.Right => t.x

/-- A translation component by axis number (x = 0, y = 1, z = 2). -/
def componentOnAxis (a : Nat) (t : Translation) : ℚ :=
  if a = 0 then t.x else if a = 1 then t.y else t.z

/-- Modelled from the spec (3, BlockList): SECTOR_SIZE_PAD_U32, the padded
side length S_pad = padding + SECTOR_SIZE + padding with one block of
padding per face, which terrain/world_gen.rs imports from a revision of
terrain/mod.rs that is not under src/. -/
def SECTOR_SIZE_PAD_U32 : Nat := 1 + SECTOR_SIZE + 1

/-- Modelled from the spec (3): the sector-local coordinates of the padded
revision used by terrain/world_gen.rs (components < S_pad). -/
@[ext] structure PadCoords where
  x : Nat
  y : Nat
  z : Nat
  hx : x < SECTOR_SIZE_PAD_U32
  hy : y < SECTOR_SIZE_PAD_U32
  hz : z < SECTOR_SIZE_PAD_U32

/-- Modelled from the spec (3): the padded block storage of the revision
used by terrain/world_gen.rs: S_pad³ entries in the row-major layout
x + y*S_pad + z*S_pad². -/
structure PadBlockList where
  data : List Block
  hlen : data.length = SECTOR_SIZE_PAD_U32 * SECTOR_SIZE_PAD_U32 * SECTOR_SIZE_PAD_U32

/-- The row-major index of the padded storage. -/
def PadBlockList.index (pos : PadCoords) : Nat :=
  pos.x + pos.y * SECTOR_SIZE_PAD_U32 + pos.z * SECTOR_SIZE_PAD_U32 * SECTOR_SIZE_PAD_U32

/-- Get a block of the padded storage. -/
def PadBlockList.get (bl : PadBlockList) (pos : PadCoords) : Block :=
  bl.data.get ⟨PadBlockList.index pos, by
    have hx := pos.hx
    have hy := pos.hy
    have hz := pos.hz
    rw [bl.hlen]
    simp only [PadBlockList.index, SECTOR_SIZE_PAD_U32, SECTOR_SIZE] at *
    omega⟩

/-- Set a block of the padded storage. -/
def PadBlockList.set (bl : PadBlockList) (pos : PadCoords) (b : Block) : PadBlockList :=
  ⟨bl.data.set (PadBlockList.index pos) b, by rw [List.length_set]; exact bl.hlen⟩

/-- The all-air padded storage. -/
def PadBlockList.new_air : PadBlockList :=
  ⟨List.replicate (SECTOR_SIZE_PAD_U32 * SECTOR_SIZE_PAD_U32 * SECTOR_SIZE_PAD_U32) Block.Air,
   List.length_replicate _ _⟩

/-- Source: terrain/world_gen.rs, struct WorldGen.  The BasicMulti noise
modules are state of the external noise crate that the live generate body
never samples; each is abstracted as a 2D noise function. -/
structure WorldGen where
  base_terrain : ℚ → ℚ → ℚ
  compression : ℚ → ℚ → ℚ
  general_height : ℚ → ℚ → ℚ
  tree0 : ℚ → ℚ → ℚ
  tree1 : ℚ → ℚ → ℚ

/-- Source: terrain/world_gen.rs, WorldGen::new.  The noise constructions
live in the external crate; a zero field stands in for each (generate
never reads them). -/
def WorldGen.new : WorldGen :=
  ⟨fun _ _ => 0, fun _ _ => 0, fun _ _ => 0, fun _ _ => 0, fun _ _ => 0⟩

/-- Source: terrain/world_gen.rs, the inner y loop of generate: starting
at y, while y < S_pad and h = y + sector.1 * SECTOR_SIZE ≤ 0, set Grass
and continue; the first y with h > 0 breaks out of the column.  The first
argument bounds the remaining iterations and is passed S_pad at the call,
making the recursion equal to the source loop. -/
def genColumn (s1 : ℤ) (x z : Nat) (hx : x < SECTOR_SIZE_PAD_U32)
    (hz : z < SECTOR_SIZE_PAD_U32) :
    Nat → Nat → PadBlockList → PadBlockList
  | 0, _, list => list
  | rest + 1, y, list =>
    if hy : y < SECTOR_SIZE_PAD_U32 then
      if (y : ℤ) + s1 * (SECTOR_SIZE : ℤ) ≤ 0 then
        genColumn s1 x z hx hz rest (y + 1) (list.set ⟨x, y, z, hx, hy, hz⟩ Block.Grass)
      else
        list
    else
      list

/-- Source: terrain/world_gen.rs, WorldGen::generate (the live body, lines
187-204): start from all air and fill each padded column bottom-up while
the absolute world height stays at or below ground; the receiver's noise
fields are never consulted. -/
def WorldGen.generate (_gen : WorldGen) (sector : ℤ × ℤ × ℤ) : PadBlockList :=
  (List.finRange SECTOR_SIZE_PAD_U32).foldl (fun acc x =>
    (List.finRange SECTOR_SIZE_PAD_U32).foldl (fun acc2 z =>
      genColumn sector.2.1 x.val z.val x.isLt z.isLt SECTOR_SIZE_PAD_U32 0 acc2) acc)
    PadBlockList.new_air

theorem BlockList.index_lt (pos : SectorSpaceCoords) :
    BlockList.index pos < SECTOR_LEN := by
  have hx := pos.hx
  have hy := pos.hy
  have hz := pos.hz
  simp only [BlockList.index, SECTOR_LEN, SECTOR_SIZE] at *
  omega

theorem blockListIterDecode_index (pos : SectorSpaceCoords) :
    blockListIterDecode (BlockList.index pos) = (pos.x, pos.y, pos.z) := by
  have hx := pos.hx
  have hy := pos.hy
  have hz := pos.hz
  simp only [blockListIterDecode, BlockList.index, SECTOR_SIZE,
    Prod.mk.injEq] at *
  omega

theorem should_create_face_eq_spec (f : Face) (c : SectorSpaceCoords)
    (blocks : BlockList) (adjacent : AdjacentSectors) :
    should_create_face f c blocks adjacent =
      (neighborBlockSpec f c blocks adjacent).is_air := by
  cases f
  case Back =>
    unfold should_create_face neighborBlockSpec stepInSector
    cases hc : c.back <;>
      simp [hc, AdjacentSectors.sel, Face.wrap, Block.needs_rendering]
  case Front =>
    unfold should_create_face neighborBlockSpec stepInSector
    cases hc : c.front <;>
      simp [hc, AdjacentSectors.sel, Face.wrap, Block.needs_rendering]
  case Top =>
    unfold should_create_face neighborBlockSpec stepInSector
    cases hc : c.top <;>
      simp [hc, AdjacentSectors.sel, Face.wrap, Block.needs_rendering]
  case Bottom =>
    unfold should_create_face neighborBlockSpec stepInSector
    cases hc : c.bottom <;>
      simp [hc, AdjacentSectors.sel, Face.wrap, Block.needs_rendering]
  case Left =>
    unfold should_create_face neighborBlockSpec stepInSector
    cases hc : c.left <;>
      simp [hc, AdjacentSectors.sel, Face.wrap, Block.needs_rendering]
  case Right =>
    unfold should_create_face neighborBlockSpec stepInSector
    cases hc : c.right <;>
      simp [hc, AdjacentSectors.sel, Face.wrap, Block.needs_rendering]

theorem stepInSector_eq_none_of_atBoundary (f : Face) (c : SectorSpaceCoords)
    (h : Face.atBoundary f c) : stepInSector f c = none := by
  cases f <;>
    simp_all [stepInSector, Face.atBoundary, SectorSpaceCoords.back,
      SectorSpaceCoords.front, SectorSpaceCoords.top, SectorSpaceCoords.bottom,
      SectorSpaceCoords.left, SectorSpaceCoords.right, SECTOR_SIZE]

theorem should_create_face_boundary (f : Face) (c : SectorSpaceCoords)
    (blocks : BlockList) (adjacent : AdjacentSectors)
    (h : Face.atBoundary f c) :
    should_create_face f c blocks adjacent =
      (((AdjacentSectors.sel f adjacent).blocks).get (Face.wrap f c)).is_air := by
  rw [should_create_face_eq_spec, neighborBlockSpec,
    stepInSector_eq_none_of_atBoundary f c h]

theorem atBoundary_wrap (f : Face) (c : SectorSpaceCoords)
    (h : Face.atBoundary f c) :
    Face.atBoundary (Face.opposite f) (Face.wrap f c) := by
  cases f <;> simp_all [Face.atBoundary, Face.opposite, Face.wrap]

theorem wrap_wrap (f : Face) (c : SectorSpaceCoords)
    (h : Face.atBoundary f c) :
    Face.wrap (Face.opposite f) (Face.wrap f c) = c := by
  cases f <;> (ext <;> simp_all [Face.atBoundary, Face.opposite, Face.wrap])

theorem infix_append_of_left {α : Type} {m a : List α} (b : List α)
    (h : m.IsInfix a) : m.IsInfix (a ++ b) := by
  obtain ⟨s, t, hst⟩ := h
  exact ⟨s, t ++ b, by rw [← hst]; simp⟩

theorem infix_append_of_right {α : Type} {m b : List α} (a : List α)
    (h : m.IsInfix b) : m.IsInfix (a ++ b) := by
  obtain ⟨s, t, hst⟩ := h
  exact ⟨a ++ s, t, by rw [← hst]; simp⟩

theorem generate_face_infix_blockFaces (f : Face) (i : SectorSpaceCoords × Block)
    (blocks : BlockList) (adjacent : AdjacentSectors) (texture_info : OutputInfo)
    (h : should_create_face f i.1 blocks adjacent = true) :
    (generate_face i f texture_info).IsInfix
      (blockFaces i blocks adjacent texture_info) := by
  unfold blockFaces
  cases f
  case Back =>
    apply infix_append_of_left
    apply infix_append_of_left
    apply infix_append_of_left
    apply infix_append_of_left
    apply infix_append_of_left
    rw [if_pos h]
  case Front =>
    apply infix_append_of_left
    apply infix_append_of_left
    apply infix_append_of_left
    apply infix_append_of_left
    apply infix_append_of_right
    rw [if_pos h]
  case Top =>
    apply infix_append_of_left
    apply infix_append_of_left
    apply infix_append_of_left
    apply infix_append_of_right
    rw [if_pos h]
  case Bottom =>
    apply infix_append_of_left
    apply infix_append_of_left
    apply infix_append_of_right
    rw [if_pos h]
  case Left =>
    apply infix_append_of_left
    apply infix_append_of_right
    rw [if_pos h]
  case Right =>
    apply infix_append_of_right
    rw [if_pos h]

theorem mem_iter (bl : BlockList) (c : SectorSpaceCoords) :
    (c, bl.get c) ∈ bl.iter := by
  unfold BlockList.iter
  apply List.mem_map.2
  refine ⟨⟨BlockList.index c, BlockList.index_lt c⟩, List.mem_finRange _, ?_⟩
  have hd := blockListIterDecode_index c
  refine Prod.ext ?_ rfl
  ext <;> simp [hd]

theorem generate_face_infix_mesh (f : Face) (c : SectorSpaceCoords)
    (blocks : BlockList) (adjacent : AdjacentSectors) (texture_info : OutputInfo)
    (hair : (blocks.get c).is_air = false)
    (h : should_create_face f c blocks adjacent = true) :
    (generate_face (c, blocks.get c) f texture_info).IsInfix
      (generate_block_vertices blocks adjacent texture_info) := by
  apply List.IsInfix.trans
    (generate_face_infix_blockFaces f (c, blocks.get c) blocks adjacent texture_info h)
  unfold generate_block_vertices
  apply List.infix_of_mem_flatten
  have hm := List.mem_map_of_mem
    (fun i => if !i.2.is_air then blockFaces i blocks adjacent texture_info else [])
    (mem_iter blocks c)
  simpa [hair] using hm


/-- C8: for all in-bounds SectorSpaceCoords, BlockList.index is injective
(distinct coordinate triples map to distinct array indices), and the
inverse decoding used by BlockListIter (z = i div S², y = (i mod S²) div S,
x = i mod S) recovers the original (x, y, z) from index(x, y, z). -/
theorem blockList_index_roundtrip_injective :
    (∀ pos : SectorSpaceCoords,
      blockListIterDecode (BlockList.index pos) = (pos.x, pos.y, pos.z)) ∧
    (∀ p q : SectorSpaceCoords, BlockList.index p = BlockList.index q → p = q) := by
  refine ⟨blockListIterDecode_index, ?_⟩
  intro p q h
  have hp := blockListIterDecode_index p
  have hq := blockListIterDecode_index q
  rw [h, hq] at hp
  ext <;> simp_all

/-- Witness for C8 at the concrete coordinate (1, 2, 3). -/
theorem blockList_index_roundtrip_injective_witness :
    blockListIterDecode
      (BlockList.index ⟨1, 2, 3, by decide, by decide, by decide⟩) = (1, 2, 3) ∧
    (⟨1, 2, 3, by decide, by decide, by decide⟩ : SectorSpaceCoords) =
      ⟨1, 2, 3, by decide, by decide, by decide⟩ :=
  ⟨blockList_index_roundtrip_injective.1 _,
   blockList_index_roundtrip_injective.2 _ _ rfl⟩

/-- C4 counterexample: SECTOR_LEN in terrain/voxel.rs is SECTOR_SIZE³ =
32768 with index stride SECTOR_SIZE = 32; it is not the padded
(1 + SECTOR_SIZE + 1)³ = 39304 storage with stride 34 that the claim
asserts. -/
theorem blockList_padded_storage_counterexample :
    SECTOR_LEN = 32768 ∧
    (1 + SECTOR_SIZE + 1) ^ 3 = 39304 ∧
    SECTOR_LEN ≠ (1 + SECTOR_SIZE + 1) ^ 3 ∧
    BlockList.index ⟨0, 1, 0, by decide, by decide, by decide⟩ = 32 ∧
    BlockList.index ⟨0, 1, 0, by decide, by decide, by decide⟩ ≠
      1 * (1 + SECTOR_SIZE + 1) := by
  refine ⟨rfl, rfl, by decide, rfl, by decide⟩

/-- C4 amended: a BlockList owns a flat array of exactly
SECTOR_LEN = SECTOR_SIZE³ blocks (the sector side length itself, with no
padding), and the index mapping is the fixed row-major formula
x + y*SECTOR_SIZE + z*SECTOR_SIZE², which stays within the array bounds
for every in-range coordinate. -/
theorem blockList_storage_size :
    SECTOR_LEN = SECTOR_SIZE * SECTOR_SIZE * SECTOR_SIZE ∧
    (∀ bl : BlockList, bl.data.length = SECTOR_LEN) ∧
    (∀ pos : SectorSpaceCoords,
      BlockList.index pos =
        pos.x + pos.y * SECTOR_SIZE + pos.z * (SECTOR_SIZE * SECTOR_SIZE) ∧
      BlockList.index pos < SECTOR_LEN) := by
  refine ⟨rfl, fun bl => bl.hlen, fun pos => ⟨?_, BlockList.index_lt pos⟩⟩
  simp [BlockList.index, Nat.mul_assoc]


/-- C3: for any two face-adjacent sectors A and B supplied to the mesh
generator, if A's boundary block is solid and B's matching boundary
neighbor block is solid, then no quad is emitted on that shared boundary
by either sector's mesh; if B's matching neighbor block is air, then A's
mesh includes the quad for that boundary face; and should_create_face
returns true exactly when the occluding neighbor block (the same sector
when the coordinate is interior, else the matching position of the
adjacent sector) is air. -/
theorem cross_sector_face_culling
    (f : Face) (A B : Sector) (adjA adjB : AdjacentSectors)
    (c : SectorSpaceCoords) (ti : OutputInfo)
    (hA : AdjacentSectors.sel f adjA = B)
    (hB : AdjacentSectors.sel (Face.opposite f) adjB = A)
    (hb : Face.atBoundary f c) :
    ((A.blocks.get c).is_air = false →
      (B.blocks.get (Face.wrap f c)).is_air = false →
      should_create_face f c A.blocks adjA = false ∧
      should_create_face (Face.opposite f) (Face.wrap f c) B.blocks adjB = false) ∧
    ((B.blocks.get (Face.wrap f c)).is_air = true →
      should_create_face f c A.blocks adjA = true ∧
      ((A.blocks.get c).is_air = false →
        (generate_face (c, A.blocks.get c) f ti).IsInfix
          (generate_block_vertices A.blocks adjA ti))) ∧
    (∀ c2, should_create_face f c2 A.blocks adjA = true ↔
      (neighborBlockSpec f c2 A.blocks adjA).is_air = true) := by
  have e1 : should_create_face f c A.blocks adjA =
      (B.blocks.get (Face.wrap f c)).is_air := by
    rw [should_create_face_boundary f c A.blocks adjA hb, hA]
  have e2 : should_create_face (Face.opposite f) (Face.wrap f c) B.blocks adjB =
      (A.blocks.get c).is_air := by
    rw [should_create_face_boundary _ _ _ _ (atBoundary_wrap f c hb), hB,
      wrap_wrap f c hb]
  refine ⟨fun h1 h2 => ⟨by rw [e1, h2], by rw [e2, h1]⟩,
    fun h2 => ⟨by rw [e1, h2],
      fun h1 => generate_face_infix_mesh f c A.blocks adjA ti h1 (by rw [e1, h2])⟩,
    fun c2 => by rw [should_create_face_eq_spec]⟩

/-- Witness for C3: sector A solid at the boundary block (0,0,0), the
all-air neighbor B on A's left; A's mesh includes the boundary quad. -/
theorem cross_sector_face_culling_witness :
    should_create_face Face.Left ⟨0, 0, 0, by decide, by decide, by decide⟩
      (BlockList.set BlockList.new_air
        ⟨0, 0, 0, by decide, by decide, by decide⟩ Block.Grass)
      ⟨⟨BlockList.new_air, none⟩, ⟨BlockList.new_air, none⟩,
       ⟨BlockList.new_air, none⟩, ⟨BlockList.new_air, none⟩,
       ⟨BlockList.new_air, none⟩, ⟨BlockList.new_air, none⟩⟩ = true ∧
    (generate_face
        (⟨0, 0, 0, by decide, by decide, by decide⟩,
         (BlockList.set BlockList.new_air
            ⟨0, 0, 0, by decide, by decide, by decide⟩ Block.Grass).get
           ⟨0, 0, 0, by decide, by decide, by decide⟩)
        Face.Left ⟨256, 256⟩).IsInfix
      (generate_block_vertices
        (BlockList.set BlockList.new_air
          ⟨0, 0, 0, by decide, by decide, by decide⟩ Block.Grass)
        ⟨⟨BlockList.new_air, none⟩, ⟨BlockList.new_air, none⟩,
         ⟨BlockList.new_air, none⟩, ⟨BlockList.new_air, none⟩,
         ⟨BlockList.new_air, none⟩, ⟨BlockList.new_air, none⟩⟩ ⟨256, 256⟩) := by
  have T := cross_sector_face_culling Face.Left
    ⟨BlockList.set BlockList.new_air
      ⟨0, 0, 0, by decide, by decide, by decide⟩ Block.Grass, none⟩
    ⟨BlockList.new_air, none⟩
    ⟨⟨BlockList.new_air, none⟩, ⟨BlockList.new_air, none⟩,
     ⟨BlockList.new_air, none⟩, ⟨BlockList.new_air, none⟩,
     ⟨BlockList.new_air, none⟩, ⟨BlockList.new_air, none⟩⟩
    ⟨⟨BlockList.set BlockList.new_air
        ⟨0, 0, 0, by decide, by decide, by decide⟩ Block.Grass, none⟩,
     ⟨BlockList.set BlockList.new_air
        ⟨0, 0, 0, by decide, by decide, by decide⟩ Block.Grass, none⟩,
     ⟨BlockList.set BlockList.new_air
        ⟨0, 0, 0, by decide, by decide, by decide⟩ Block.Grass, none⟩,
     ⟨BlockList.set BlockList.new_air
        ⟨0, 0, 0, by decide, by decide, by decide⟩ Block.Grass, none⟩,
     ⟨BlockList.set BlockList.new_air
        ⟨0, 0, 0, by decide, by decide, by decide⟩ Block.Grass, none⟩,
     ⟨BlockList.set BlockList.new_air
        ⟨0, 0, 0, by decide, by decide, by decide⟩ Block.Grass, none⟩⟩
    ⟨0, 0, 0, by decide, by decide, by decide⟩ ⟨256, 256⟩ rfl rfl rfl
  exact ⟨(T.2.1 rfl).1, (T.2.1 rfl).2 rfl⟩

/-- C1 counterexample: the claim's visibility threshold is minus the
half-extent SECTOR_SIZE/2 = 16, but sector_visible only rejects at
distance ≤ -SECTOR_SIZE = -32: this frustum holds the center of sector
(0,0,0) at signed distance -20 on its first plane, so the claim classifies
the sector not visible while sector_visible returns true. -/
theorem sector_visible_radius_counterexample :
    planeDistance ⟨0, 1, 0, -36⟩ (sectorCenter (0, 0, 0)) = -20 ∧
    planeDistance ⟨0, 1, 0, -36⟩ (sectorCenter (0, 0, 0)) ≤ -(SECTOR_SIZE_F / 2) ∧
    (⟨0, 1, 0, -36⟩ : Plane) ∈ frustumCex.planes ∧
    sector_visible frustumCex (0, 0, 0) = true := by
  refine ⟨?_, ?_, ?_, ?_⟩
  · norm_num [planeDistance, sectorCenter, SECTOR_SIZE_F, SECTOR_SIZE_F_2, SECTOR_SIZE]
  · norm_num [planeDistance, sectorCenter, SECTOR_SIZE_F, SECTOR_SIZE_F_2, SECTOR_SIZE]
  · simp [frustumCex]
  · norm_num [sector_visible, frustumCex, planeDistance, sectorCenter,
      SECTOR_SIZE_F, SECTOR_SIZE_F_2, SECTOR_SIZE]

/-- C1 amended: sector_visible classifies a sector as not visible if and
only if some frustum plane holds the sector's world-space center (sector
coordinate times sector size plus half a sector) at signed distance less
than or equal to minus the FULL sector size SECTOR_SIZE (not the
half-extent); otherwise the sector is classified visible. -/
theorem sector_visible_iff (f : Frustum) (pos : ℤ × ℤ × ℤ) :
    sector_visible f pos = false ↔
      ∃ p ∈ f.planes, planeDistance p (sectorCenter pos) ≤ -SECTOR_SIZE_F := by
  rw [← Bool.not_eq_true, sector_visible, List.all_eq_true]
  simp

/-- C2 counterexample: requesting the coordinate (0,0,0) twice while it is
never resident appends it twice: the pending queue holds it twice and its
size grows from 1 to 2 on the duplicate request, contrary to the claim. -/
theorem pending_duplicate_counterexample :
    requestSector [] (requestSector [] [] (0, 0, 0)) (0, 0, 0) =
      [(0, 0, 0), (0, 0, 0)] ∧
    (requestSector [] [] (0, 0, 0)).length = 1 ∧
    (requestSector [] (requestSector [] [] (0, 0, 0)) (0, 0, 0)).length = 2 ∧
    (requestSector [] (requestSector [] [] (0, 0, 0)) (0, 0, 0)).count (0, 0, 0) = 2 := by
  refine ⟨rfl, rfl, rfl, by decide⟩

/-- C2 amended: a request for a coordinate that is not resident in the
sector map is appended to the pending work queue unconditionally — the
queue length grows by one and the coordinate's multiplicity grows by one
even when it is already pending (duplicates accumulate); only a resident
coordinate is not re-requested. -/
theorem pending_request_appends (sectors : SectorMap)
    (queue : List (ℤ × ℤ × ℤ)) (c : ℤ × ℤ × ℤ) :
    ((sectors.lookup c).isSome = false →
      requestSector sectors queue c = queue ++ [c] ∧
      (requestSector sectors queue c).length = queue.length + 1 ∧
      (requestSector sectors queue c).count c = queue.count c + 1) ∧
    ((sectors.lookup c).isSome = true →
      requestSector sectors queue c = queue) := by
  constructor
  · intro h
    refine ⟨by simp [requestSector, h], by simp [requestSector, h], ?_⟩
    simp [requestSector, h, List.count_append]
  · intro h
    simp [requestSector, h]

/-- Witness for C2 amended at the empty map and queue. -/
theorem pending_request_appends_witness :
    requestSector [] [] (0, 0, 0) = [] ++ [(0, 0, 0)] ∧
    (requestSector [] [] (0, 0, 0)).length = ([] : List (ℤ × ℤ × ℤ)).length + 1 ∧
    (requestSector [] [] (0, 0, 0)).count (0, 0, 0) =
      ([] : List (ℤ × ℤ × ℤ)).count (0, 0, 0) + 1 :=
  (pending_request_appends [] [] (0, 0, 0)).1 rfl

/-- C10: a Generated result for a coordinate already present in the
terrain map is discarded: the map is left entirely unchanged and the
resident entry keeps its BlockList and model. -/
theorem generated_result_discarded_when_resident (sectors : SectorMap)
    (c : ℤ × ℤ × ℤ) (block_list : BlockList) (s : Sector)
    (h : sectors.lookup c = some s) :
    handleGenerated sectors c block_list = sectors ∧
    (handleGenerated sectors c block_list).lookup c = some s := by
  simp [handleGenerated, h]

/-- Witness for C10: a resident all-air sector at (0,0,0) survives a newly
delivered non-air BlockList untouched. -/
theorem generated_result_discarded_when_resident_witness :
    handleGenerated [((0, 0, 0), Sector.new BlockList.new_air)] (0, 0, 0)
        (BlockList.set BlockList.new_air
          ⟨0, 0, 0, by decide, by decide, by decide⟩ Block.Grass) =
      [((0, 0, 0), Sector.new BlockList.new_air)] ∧
    (handleGenerated [((0, 0, 0), Sector.new BlockList.new_air)] (0, 0, 0)
        (BlockList.set BlockList.new_air
          ⟨0, 0, 0, by decide, by decide, by decide⟩ Block.Grass)).lookup (0, 0, 0) =
      some (Sector.new BlockList.new_air) :=
  generated_result_discarded_when_resident _ _ _ _ rfl

/-- C5: WorldGen::generate is deterministic — for every sector coordinate
it returns equal BlockLists (with identical contents at every position)
for any two WorldGen values, in particular for a WorldGen and its clone:
the output depends only on the coordinate argument. -/
theorem worldgen_generate_deterministic (g1 g2 : WorldGen) (sector : ℤ × ℤ × ℤ) :
    WorldGen.generate g1 sector = WorldGen.generate g2 sector ∧
    ∀ pos : PadCoords,
      (WorldGen.generate g1 sector).get pos = (WorldGen.generate g2 sector).get pos :=
  ⟨rfl, fun _ => rfl⟩

theorem PadBlockList.index_inj (p q : PadCoords)
    (h : PadBlockList.index p = PadBlockList.index q) : p = q := by
  have hx1 := p.hx
  have hy1 := p.hy
  have hz1 := p.hz
  have hx2 := q.hx
  have hy2 := q.hy
  have hz2 := q.hz
  simp only [PadBlockList.index, SECTOR_SIZE_PAD_U32, SECTOR_SIZE] at *
  ext <;> omega

theorem PadBlockList.get_set_self (bl : PadBlockList) (pos : PadCoords) (b : Block) :
    (bl.set pos b).get pos = b := by
  unfold PadBlockList.get PadBlockList.set
  simp [List.get_eq_getElem, List.getElem_set_self]

theorem PadBlockList.get_set_ne (bl : PadBlockList) (p q : PadCoords) (b : Block)
    (h : q ≠ p) : (bl.set p b).get q = bl.get q := by
  unfold PadBlockList.get PadBlockList.set
  simp only [List.get_eq_getElem]
  rw [List.getElem_set_ne]
  intro he
  exact h (PadBlockList.index_inj q p he.symm)

theorem genColumn_get_other (s1 : ℤ) (x z : Nat) (hx : x < SECTOR_SIZE_PAD_U32)
    (hz : z < SECTOR_SIZE_PAD_U32) :
    ∀ (rest y : Nat) (list : PadBlockList) (pos : PadCoords),
      (pos.x ≠ x ∨ pos.z ≠ z) →
      (genColumn s1 x z hx hz rest y list).get pos = list.get pos := by
  intro rest
  induction rest with
  | zero => intro y list pos _; rfl
  | succ n ih =>
    intro y list pos h
    simp only [genColumn]
    split
    · split
      · rw [ih _ _ _ h]
        apply PadBlockList.get_set_ne
        intro he
        rw [he] at h
        simp at h
      · rfl
    · rfl

theorem genColumn_get_low (s1 : ℤ) (x z : Nat) (hx : x < SECTOR_SIZE_PAD_U32)
    (hz : z < SECTOR_SIZE_PAD_U32) :
    ∀ (rest y : Nat) (list : PadBlockList) (pos : PadCoords),
      pos.y < y →
      (genColumn s1 x z hx hz rest y list).get pos = list.get pos := by
  intro rest
  induction rest with
  | zero => intro y list pos _; rfl
  | succ n ih =>
    intro y list pos h
    simp only [genColumn]
    split
    · split
      · rw [ih _ _ _ (by omega)]
        apply PadBlockList.get_set_ne
        intro he
        rw [he] at h
        simp at h
      · rfl
    · rfl

theorem genColumn_fill (s1 : ℤ) (x z : Nat) (hx : x < SECTOR_SIZE_PAD_U32)
    (hz : z < SECTOR_SIZE_PAD_U32)
    (hall : ∀ yy : Nat, yy < SECTOR_SIZE_PAD_U32 →
      (yy : ℤ) + s1 * (SECTOR_SIZE : ℤ) ≤ 0) :
    ∀ (rest y : Nat) (list : PadBlockList) (pos : PadCoords),
      pos.x = x → pos.z = z → y ≤ pos.y → pos.y < y + rest →
      (genColumn s1 x z hx hz rest y list).get pos = Block.Grass := by
  intro rest
  induction rest with
  | zero => intro y list pos _ _ h1 h2; omega
  | succ n ih =>
    intro y list pos hpx hpz h1 h2
    have hy : y < SECTOR_SIZE_PAD_U32 := by have := pos.hy; omega
    simp only [genColumn]
    rw [dif_pos hy, if_pos (hall y hy)]
    by_cases hcase : pos.y = y
    · rw [genColumn_get_low _ _ _ _ _ _ _ _ _ (by omega)]
      have hpos : pos = ⟨x, y, z, hx, hy, hz⟩ := by
        ext
        · exact hpx
        · exact hcase
        · exact hpz
      rw [hpos, PadBlockList.get_set_self]
    · exact ih (y + 1) _ pos hpx hpz (by omega) (by omega)

theorem genColumn_stop (s1 : ℤ) (x z : Nat) (hx : x < SECTOR_SIZE_PAD_U32)
    (hz : z < SECTOR_SIZE_PAD_U32)
    (h : ¬((0 : ℤ) + s1 * (SECTOR_SIZE : ℤ) ≤ 0)) :
    ∀ (rest : Nat) (list : PadBlockList),
      genColumn s1 x z hx hz rest 0 list = list := by
  intro rest list
  cases rest with
  | zero => rfl
  | succ n =>
    simp only [genColumn, Nat.cast_zero]
    rw [dif_pos (by decide : (0 : Nat) < SECTOR_SIZE_PAD_U32), if_neg h]

theorem genInnerFold_preserve_x (s1 : ℤ) (x : Fin SECTOR_SIZE_PAD_U32) :
    ∀ (zs : List (Fin SECTOR_SIZE_PAD_U32)) (acc : PadBlockList) (pos : PadCoords),
      pos.x ≠ x.val →
      ((zs.foldl (fun acc2 z =>
          genColumn s1 x.val z.val x.isLt z.isLt SECTOR_SIZE_PAD_U32 0 acc2) acc).get pos =
        acc.get pos) := by
  intro zs
  induction zs with
  | nil => intro acc pos _; rfl
  | cons zh zt ih =>
    intro acc pos h
    rw [List.foldl_cons, ih _ _ h, genColumn_get_other _ _ _ _ _ _ _ _ _ (Or.inl h)]

theorem genInnerFold_preserve_z (s1 : ℤ) (x : Fin SECTOR_SIZE_PAD_U32) :
    ∀ (zs : List (Fin SECTOR_SIZE_PAD_U32)) (acc : PadBlockList) (pos : PadCoords),
      (∀ zf ∈ zs, pos.z ≠ zf.val) →
      ((zs.foldl (fun acc2 z =>
          genColumn s1 x.val z.val x.isLt z.isLt SECTOR_SIZE_PAD_U32 0 acc2) acc).get pos =
        acc.get pos) := by
  intro zs
  induction zs with
  | nil => intro acc pos _; rfl
  | cons zh zt ih =>
    intro acc pos h
    rw [List.foldl_cons, ih _ _ (fun zf hz => h zf (List.mem_cons_of_mem _ hz)),
      genColumn_get_other _ _ _ _ _ _ _ _ _ (Or.inr (h zh (List.mem_cons_self _ _)))]

theorem genInnerFold_fill (s1 : ℤ) (x : Fin SECTOR_SIZE_PAD_U32)
    (hall : ∀ yy : Nat, yy < SECTOR_SIZE_PAD_U32 →
      (yy : ℤ) + s1 * (SECTOR_SIZE : ℤ) ≤ 0) :
    ∀ (zs : List (Fin SECTOR_SIZE_PAD_U32)) (acc : PadBlockList) (pos : PadCoords),
      pos.x = x.val → (∃ zf ∈ zs, pos.z = zf.val) →
      ((zs.foldl (fun acc2 z =>
          genColumn s1 x.val z.val x.isLt z.isLt SECTOR_SIZE_PAD_U32 0 acc2) acc).get pos =
        Block.Grass) := by
  intro zs
  induction zs with
  | nil => intro acc pos _ hex; simp at hex
  | cons zh zt ih =>
    intro acc pos hpx hex
    rw [List.foldl_cons]
    by_cases hmem : ∃ zf ∈ zt, pos.z = zf.val
    · exact ih _ pos hpx hmem
    · have hzh : pos.z = zh.val := by
        rcases hex with ⟨zf, hzf, hzv⟩
        rcases List.mem_cons.1 hzf with h1 | h2
        · rw [hzv, h1]
        · exact absurd ⟨zf, h2, hzv⟩ hmem
      have hnot : ∀ zf ∈ zt, pos.z ≠ zf.val := by
        intro zf hzf he
        exact hmem ⟨zf, hzf, he⟩
      rw [genInnerFold_preserve_z _ _ _ _ _ hnot,
        genColumn_fill _ _ _ _ _ hall _ _ _ _ hpx hzh (Nat.zero_le _)
          (by have := pos.hy; omega)]

theorem genOuterFold_preserve (s1 : ℤ) :
    ∀ (xs : List (Fin SECTOR_SIZE_PAD_U32)) (acc : PadBlockList) (pos : PadCoords),
      (∀ xf ∈ xs, pos.x ≠ xf.val) →
      ((xs.foldl (fun acc x =>
          (List.finRange SECTOR_SIZE_PAD_U32).foldl (fun acc2 z =>
            genColumn s1 x.val z.val x.isLt z.isLt SECTOR_SIZE_PAD_U32 0 acc2) acc)
        acc).get pos = acc.get pos) := by
  intro xs
  induction xs with
  | nil => intro acc pos _; rfl
  | cons xh xt ih =>
    intro acc pos h
    rw [List.foldl_cons, ih _ _ (fun xf hx => h xf (List.mem_cons_of_mem _ hx)),
      genInnerFold_preserve_x _ _ _ _ _ (h xh (List.mem_cons_self _ _))]

theorem generate_all_grass (g : WorldGen) (sector : ℤ × ℤ × ℤ)
    (hall : ∀ y : Nat, y < SECTOR_SIZE_PAD_U32 →
      (y : ℤ) + sector.2.1 * (SECTOR_SIZE : ℤ) ≤ 0) :
    ∀ pos : PadCoords, (WorldGen.generate g sector).get pos = Block.Grass := by
  intro pos
  unfold WorldGen.generate
  have main : ∀ (xs : List (Fin SECTOR_SIZE_PAD_U32)) (acc : PadBlockList),
      (∃ xf ∈ xs, pos.x = xf.val) →
      ((xs.foldl (fun acc x =>
          (List.finRange SECTOR_SIZE_PAD_U32).foldl (fun acc2 z =>
            genColumn sector.2.1 x.val z.val x.isLt z.isLt SECTOR_SIZE_PAD_U32 0 acc2) acc)
        acc).get pos = Block.Grass) := by
    intro xs
    induction xs with
    | nil => intro acc hex; simp at hex
    | cons xh xt ih =>
      intro acc hex
      rw [List.foldl_cons]
      by_cases hmem : ∃ xf ∈ xt, pos.x = xf.val
      · exact ih _ hmem
      · have hxh : pos.x = xh.val := by
          rcases hex with ⟨xf, hxf, hxv⟩
          rcases List.mem_cons.1 hxf with h1 | h2
          · rw [hxv, h1]
          · exact absurd ⟨xf, h2, hxv⟩ hmem
        have hnot : ∀ xf ∈ xt, pos.x ≠ xf.val := by
          intro xf hxf he
          exact hmem ⟨xf, hxf, he⟩
        rw [genOuterFold_preserve _ _ _ _ hnot,
          genInnerFold_fill _ _ hall _ _ _ hxh
            ⟨⟨pos.z, pos.hz⟩, List.mem_finRange _, rfl⟩]
  exact main (List.finRange SECTOR_SIZE_PAD_U32) PadBlockList.new_air
    ⟨⟨pos.x, pos.hx⟩, List.mem_finRange _, rfl⟩

theorem generate_all_air (g : WorldGen) (sector : ℤ × ℤ × ℤ)
    (hup : ∀ y : Nat, y < SECTOR_SIZE_PAD_U32 →
      0 < (y : ℤ) + sector.2.1 * (SECTOR_SIZE : ℤ)) :
    ∀ pos : PadCoords, (WorldGen.generate g sector).get pos = Block.Air := by
  intro pos
  unfold WorldGen.generate
  have h0 : ¬((0 : ℤ) + sector.2.1 * (SECTOR_SIZE : ℤ) ≤ 0) := by
    have := hup 0 (by decide)
    simp only [Nat.cast_zero] at this
    omega
  have hinner : ∀ (x : Fin SECTOR_SIZE_PAD_U32)
      (zs : List (Fin SECTOR_SIZE_PAD_U32)) (acc : PadBlockList),
      (zs.foldl (fun acc2 z =>
        genColumn sector.2.1 x.val z.val x.isLt z.isLt SECTOR_SIZE_PAD_U32 0 acc2) acc) = acc := by
    intro x zs
    induction zs with
    | nil => intro acc; rfl
    | cons zh zt ih =>
      intro acc
      rw [List.foldl_cons, genColumn_stop _ _ _ _ _ h0 _ _, ih]
  have houter : ∀ (xs : List (Fin SECTOR_SIZE_PAD_U32)) (acc : PadBlockList),
      (xs.foldl (fun acc x =>
        (List.finRange SECTOR_SIZE_PAD_U32).foldl (fun acc2 z =>
          genColumn sector.2.1 x.val z.val x.isLt z.isLt SECTOR_SIZE_PAD_U32 0 acc2) acc)
        acc) = acc := by
    intro xs
    induction xs with
    | nil => intro acc; rfl
    | cons xh xt ih =>
      intro acc
      rw [List.foldl_cons, hinner, ih]
  rw [houter]
  unfold PadBlockList.new_air PadBlockList.get
  simp [List.get_eq_getElem]

/-- C6: for every sector coordinate whose vertical component places every
padded block row at or below ground level (h = y + sector.y * SECTOR_SIZE
≤ 0 for all rows), WorldGen::generate returns a BlockList in which every
block is Grass, hence solid (non-air); for every sector fully above the
band (h > 0 for all rows), it returns a BlockList in which every block is
Air. -/
theorem worldgen_band_extremes (g : WorldGen) (sector : ℤ × ℤ × ℤ) :
    ((∀ y : Nat, y < SECTOR_SIZE_PAD_U32 →
        (y : ℤ) + sector.2.1 * (SECTOR_SIZE : ℤ) ≤ 0) →
      ∀ pos : PadCoords,
        (WorldGen.generate g sector).get pos = Block.Grass ∧
        ((WorldGen.generate g sector).get pos).is_air = false) ∧
    ((∀ y : Nat, y < SECTOR_SIZE_PAD_U32 →
        0 < (y : ℤ) + sector.2.1 * (SECTOR_SIZE : ℤ)) →
      ∀ pos : PadCoords, (WorldGen.generate g sector).get pos = Block.Air) := by
  constructor
  · intro hall pos
    have hg := generate_all_grass g sector hall pos
    exact ⟨hg, by rw [hg]; rfl⟩
  · intro hup
    exact generate_all_air g sector hup

/-- Witness for C6: sector (0,-2,0) is fully below the band and generates
Grass everywhere; sector (0,1,0) is fully above and generates Air. -/
theorem worldgen_band_extremes_witness :
    (WorldGen.generate WorldGen.new (0, -2, 0)).get
      ⟨0, 0, 0, by decide, by decide, by decide⟩ = Block.Grass ∧
    (WorldGen.generate WorldGen.new (0, 1, 0)).get
      ⟨0, 0, 0, by decide, by decide, by decide⟩ = Block.Air :=
  ⟨((worldgen_band_extremes WorldGen.new (0, -2, 0)).1 (by decide) _).1,
   (worldgen_band_extremes WorldGen.new (0, 1, 0)).2 (by decide) _⟩

theorem floor_div_sector_size (r : ℤ) :
    ⌊(r : ℚ) / SECTOR_SIZE_F⌋ = r / (SECTOR_SIZE : ℤ) := by
  unfold SECTOR_SIZE_F
  exact_mod_cast Rat.floor_intCast_div_natCast r SECTOR_SIZE

theorem localCoordsOf_bounds (pos : Translation) :
    (0 ≤ (localCoordsOf pos).1 ∧ (localCoordsOf pos).1 < (SECTOR_SIZE : ℤ)) ∧
    (0 ≤ (localCoordsOf pos).2.1 ∧ (localCoordsOf pos).2.1 < (SECTOR_SIZE : ℤ)) ∧
    (0 ≤ (localCoordsOf pos).2.2 ∧ (localCoordsOf pos).2.2 < (SECTOR_SIZE : ℤ)) := by
  unfold localCoordsOf sector_at
  rw [floor_div_sector_size, floor_div_sector_size, floor_div_sector_size]
  simp only [SECTOR_SIZE]
  omega

theorem get_visible_block_ok (sectors : SectorMap) (pos : Translation) :
    ∃ v, get_visible_block sectors pos = Except.ok v := by
  have hb := localCoordsOf_bounds pos
  simp only [localCoordsOf] at hb
  unfold get_visible_block
  dsimp only
  split
  · exact ⟨none, rfl⟩
  · split
    · exact ⟨none, rfl⟩
    · have h1 : ((roundQ pos.x - (sector_at pos).1 * (SECTOR_SIZE : ℤ)) % 256).toNat <
          SECTOR_SIZE := by
        have := hb.1
        omega
      have h2 : ((roundQ pos.y - (sector_at pos).2.1 * (SECTOR_SIZE : ℤ)) % 256).toNat <
          SECTOR_SIZE := by
        have := hb.2.1
        omega
      have h3 : ((roundQ pos.z - (sector_at pos).2.2 * (SECTOR_SIZE : ℤ)) % 256).toNat <
          SECTOR_SIZE := by
        have := hb.2.2
        omega
      rw [SectorSpaceCoords.new, dif_pos ⟨h1, h2, h3⟩]
      exact ⟨_, rfl⟩

theorem collideStep_ok (sectors : SectorMap) (f : Face) (t : Translation) :
    collideStep sectors f t = Except.ok (collideStepT sectors f t) := by
  obtain ⟨v, hv⟩ := get_visible_block_ok sectors (collideProbe f t)
  unfold collideStep collideStepT collideGuard solidProbe
  rw [hv]
  cases v <;> rfl

theorem collide_eq (sectors : SectorMap) (t : Translation) :
    collide sectors t = Except.ok
      (collideStepT sectors Face.Right (collideStepT sectors Face.Left
        (collideStepT sectors Face.Bottom (collideStepT sectors Face.Top
          (collideStepT sectors Face.Front (collideStepT sectors Face.Back t)))))) := by
  unfold collide
  rw [collideStep_ok]
  show (collideStep sectors Face.Front (collideStepT sectors Face.Back t)) >>= _ = _
  rw [collideStep_ok]
  show (collideStep sectors Face.Top _) >>= _ = _
  rw [collideStep_ok]
  show (collideStep sectors Face.Bottom _) >>= _ = _
  rw [collideStep_ok]
  show (collideStep sectors Face.Left _) >>= _ = _
  rw [collideStep_ok]
  show (collideStep sectors Face.Right _) >>= _ = _
  rw [collideStep_ok]
  rfl

/-- C9 (implicit): for every translation whose rounded components are
representable as 32-bit integers, the local coordinates computed inside
get_visible_block (rounded world component minus the sector_at component
times SECTOR_SIZE) fall in the range 0 to SECTOR_SIZE - 1 inclusive on
every axis, so the out-of-range panic branch of SectorSpaceCoords::new is
unreachable from get_visible_block (which always returns ok), and collide
never fails on coordinate math — including at negative world
coordinates. -/
theorem collision_lookup_total (pos : Translation)
    (hx : -(2 ^ 31) ≤ roundQ pos.x ∧ roundQ pos.x < 2 ^ 31)
    (hy : -(2 ^ 31) ≤ roundQ pos.y ∧ roundQ pos.y < 2 ^ 31)
    (hz : -(2 ^ 31) ≤ roundQ pos.z ∧ roundQ pos.z < 2 ^ 31) :
    ((0 ≤ (localCoordsOf pos).1 ∧ (localCoordsOf pos).1 ≤ (SECTOR_SIZE : ℤ) - 1) ∧
     (0 ≤ (localCoordsOf pos).2.1 ∧ (localCoordsOf pos).2.1 ≤ (SECTOR_SIZE : ℤ) - 1) ∧
     (0 ≤ (localCoordsOf pos).2.2 ∧ (localCoordsOf pos).2.2 ≤ (SECTOR_SIZE : ℤ) - 1)) ∧
    (∀ sectors : SectorMap, ∃ v, get_visible_block sectors pos = Except.ok v) ∧
    (∀ sectors : SectorMap, ∃ u, collide sectors pos = Except.ok u) := by
  refine ⟨?_, fun sectors => get_visible_block_ok sectors pos,
    fun sectors => ⟨_, collide_eq sectors pos⟩⟩
  have hb := localCoordsOf_bounds pos
  refine ⟨⟨hb.1.1, by have := hb.1.2; omega⟩,
    ⟨hb.2.1.1, by have := hb.2.1.2; omega⟩,
    ⟨hb.2.2.1, by have := hb.2.2.2; omega⟩⟩

/-- Witness for C9 at the negative translation (-5, -70, -1/2). -/
theorem collision_lookup_total_witness :
    (0 ≤ (localCoordsOf ⟨-5, -70, -1/2⟩).1 ∧
      (localCoordsOf ⟨-5, -70, -1/2⟩).1 ≤ (SECTOR_SIZE : ℤ) - 1) ∧
    (0 ≤ (localCoordsOf ⟨-5, -70, -1/2⟩).2.1 ∧
      (localCoordsOf ⟨-5, -70, -1/2⟩).2.1 ≤ (SECTOR_SIZE : ℤ) - 1) ∧
    (0 ≤ (localCoordsOf ⟨-5, -70, -1/2⟩).2.2 ∧
      (localCoordsOf ⟨-5, -70, -1/2⟩).2.2 ≤ (SECTOR_SIZE : ℤ) - 1) :=
  (collision_lookup_total ⟨-5, -70, -1/2⟩ (by with_unfolding_all decide)
    (by with_unfolding_all decide) (by with_unfolding_all decide)).1

/-- C7: if the block one unit away along one axis (at the integer-rounded
neighbor position) is solid and visible and the translation overlaps it
(penetrates the margin), Terrain::collide clamps that translation
component to the neighbor face coordinate plus-or-minus (1 +
COLLIDE_PADDING); in a scenario where only that one axis has an
overlapping solid neighbor (every other arm's guard is false, on the
original translation for earlier arms and on the clamped one for later
arms), the two orthogonal components of the translation are left
unchanged. -/
theorem collide_clamps_one_axis (sectors : SectorMap) (t : Translation) (f : Face)
    (hbefore : ∀ g : Face, faceOrderIdx g < faceOrderIdx f →
      collideGuard sectors g t = false)
    (hsolid : solidProbe sectors f t = true)
    (hpen : collidePenetrates f t = true)
    (hafter : ∀ g : Face, faceOrderIdx f < faceOrderIdx g →
      collideGuard sectors g (applyClamp f t) = false) :
    collide sectors t = Except.ok (applyClamp f t) ∧
    axisComponent f (applyClamp f t) =
      axisComponent f (collideProbe f t) + collideSign f * (1 + COLLIDE_PADDING) ∧
    (∀ a : Nat, a < 3 → a ≠ axisOf f →
      componentOnAxis a (applyClamp f t) = componentOnAxis a t) := by
  have hg : collideGuard sectors f t = true := by
    unfold collideGuard
    rw [hsolid, hpen]
    rfl
  have hT : collideStepT sectors f t = applyClamp f t := by
    simp [collideStepT, hg]
  have hid : ∀ (g : Face) (u : Translation), collideGuard sectors g u = false →
      collideStepT sectors g u = u := by
    intro g u h
    simp [collideStepT, h]
  rw [collide_eq]
  cases f with
  | Back =>
    refine ⟨?_, ?_, ?_⟩
    · rw [hT, hid Face.Front _ (hafter Face.Front (by decide)),
        hid Face.Top _ (hafter Face.Top (by decide)),
        hid Face.Bottom _ (hafter Face.Bottom (by decide)),
        hid Face.Left _ (hafter Face.Left (by decide)),
        hid Face.Right _ (hafter Face.Right (by decide))]
    · simp [axisComponent, applyClamp, collideMargin, collideSign]
      ring
    · intro a h3 ha
      interval_cases a <;> simp_all [componentOnAxis, applyClamp, axisOf]
  | Front =>
    refine ⟨?_, ?_, ?_⟩
    · rw [hid Face.Back _ (hbefore Face.Back (by decide)), hT,
        hid Face.Top _ (hafter Face.Top (by decide)),
        hid Face.Bottom _ (hafter Face.Bottom (by decide)),
        hid Face.Left _ (hafter Face.Left (by decide)),
        hid Face.Right _ (hafter Face.Right (by decide))]
    · simp [axisComponent, applyClamp, collideMargin, collideSign]
      ring
    · intro a h3 ha
      interval_cases a <;> simp_all [componentOnAxis, applyClamp, axisOf]
  | Top =>
    refine ⟨?_, ?_, ?_⟩
    · rw [hid Face.Back _ (hbefore Face.Back (by decide)),
        hid Face.Front _ (hbefore Face.Front (by decide)), hT,
        hid Face.Bottom _ (hafter Face.Bottom (by decide)),
        hid Face.Left _ (hafter Face.Left (by decide)),
        hid Face.Right _ (hafter Face.Right (by decide))]
    · simp [axisComponent, applyClamp, collideMargin, collideSign]
      ring
    · intro a h3 ha
      interval_cases a <;> simp_all [componentOnAxis, applyClamp, axisOf]
  | Bottom =>
    refine ⟨?_, ?_, ?_⟩
    · rw [hid Face.Back _ (hbefore Face.Back (by decide)),
        hid Face.Front _ (hbefore Face.Front (by decide)),
        hid Face.Top _ (hbefore Face.Top (by decide)), hT,
        hid Face.Left _ (hafter Face.Left (by decide)),
        hid Face.Right _ (hafter Face.Right (by decide))]
    · simp [axisComponent, applyClamp, collideMargin, collideSign]
      ring
    · intro a h3 ha
      interval_cases a <;> simp_all [componentOnAxis, applyClamp, axisOf]
  | Left =>
    refine ⟨?_, ?_, ?_⟩
    · rw [hid Face.Back _ (hbefore Face.Back (by decide)),
        hid Face.Front _ (hbefore Face.Front (by decide)),
        hid Face.Top _ (hbefore Face.Top (by decide)),
        hid Face.Bottom _ (hbefore Face.Bottom (by decide)), hT,
        hid Face.Right _ (hafter Face.Right (by decide))]
    · simp [axisComponent, applyClamp, collideMargin, collideSign]
      ring
    · intro a h3 ha
      interval_cases a <;> simp_all [componentOnAxis, applyClamp, axisOf]
  | Right =>
    refine ⟨?_, ?_, ?_⟩
    · rw [hid Face.Back _ (hbefore Face.Back (by decide)),
        hid Face.Front _ (hbefore Face.Front (by decide)),
        hid Face.Top _ (hbefore Face.Top (by decide)),
        hid Face.Bottom _ (hbefore Face.Bottom (by decide)),
        hid Face.Left _ (hbefore Face.Left (by decide)), hT]
    · simp [axisComponent, applyClamp, collideMargin, collideSign]
      ring
    · intro a h3 ha
      interval_cases a <;> simp_all [componentOnAxis, applyClamp, axisOf]

/-- Witness for C7: a visible sector at (0,0,0) whose only solid block is
the local origin; the translation (0, 11/10, 0) overlaps it from above, so
collide clamps y to 13/10 and leaves x and z unchanged. -/
theorem collide_clamps_one_axis_witness :
    collide [((0, 0, 0),
        ⟨BlockList.set BlockList.new_air
           ⟨0, 0, 0, by decide, by decide, by decide⟩ Block.Grass,
         some ⟨[], ⟨0, 0, 0⟩⟩⟩)] ⟨0, 11/10, 0⟩ =
      Except.ok (applyClamp Face.Bottom ⟨0, 11/10, 0⟩) ∧
    axisComponent Face.Bottom (applyClamp Face.Bottom ⟨0, 11/10, 0⟩) =
      axisComponent Face.Bottom (collideProbe Face.Bottom ⟨0, 11/10, 0⟩) +
        collideSign Face.Bottom * (1 + COLLIDE_PADDING) ∧
    componentOnAxis 0 (applyClamp Face.Bottom ⟨0, 11/10, 0⟩) =
      componentOnAxis 0 (⟨0, 11/10, 0⟩ : Translation) ∧
    componentOnAxis 2 (applyClamp Face.Bottom ⟨0, 11/10, 0⟩) =
      componentOnAxis 2 (⟨0, 11/10, 0⟩ : Translation) := by
  have T := collide_clamps_one_axis
    [((0, 0, 0),
        ⟨BlockList.set BlockList.new_air
           ⟨0, 0, 0, by decide, by decide, by decide⟩ Block.Grass,
         some ⟨[], ⟨0, 0, 0⟩⟩⟩)]
    ⟨0, 11/10, 0⟩ Face.Bottom
    (by with_unfolding_all decide)
    (by with_unfolding_all decide)
    (by with_unfolding_all decide)
    (by with_unfolding_all decide)
  exact ⟨T.1, T.2.1, T.2.2 0 (by decide) (by decide), T.2.2 2 (by decide) (by decide)⟩
